import Mathlib

/-!
Verification of the site health-check and composite-scoring engine of
the blog-automation script (class BlogAutomation in
06_automation_scripts_complete.py).

Modelling conventions, used throughout:

* Each Python dict produced by a probe becomes a Lean structure; a key that is
  present only on some code paths becomes an Option field, and a dict access
  that can raise KeyError is modelled as an Option-returning function
  (none = the access raises).
* The outcome of an external effect (an HTTP request via requests.get, a
  subprocess run) is an explicit inductive parameter; the except branch of the
  surrounding try corresponds to the failure constructor.
* Python numbers are modelled exactly: latencies as rationals, audit scores as
  naturals.  The expression int(lighthouse_score * 0.2) at line 644 is
  modelled as truncating natural division by 5: the IEEE double 0.2 equals
  (2 ^ 54 + 1) / (5 * 2 ^ 54), so for a natural score s the double product
  s * 0.2 lies in the interval from s / 5 up to s / 5 + s * 2 ^ 54⁻¹, is
  rounded to a double that never crosses the next integer, and truncates to
  exactly the natural quotient s / 5.
-/

namespace BlogHealth

/-! Availability probe (check_site_availability, lines 94 to 117). -/

/-- Outcome of the single requests.get call made by the availability probe:
either the raised RequestException (the except branch, line 111) or a
response, carrying the status code, the wall-clock latency stored as
response_time_ms, and whether the final URL is https. -/
inductive AvailFetch where
  | exc (msg : String)
  | resp (status_code : Nat) (response_time_ms : ℚ) (url_https : Bool)
deriving DecidableEq

/-- Dict returned by check_site_availability.  The keys status_code,
response_time_ms, ssl_valid are present only on the success path and the key
error only on the failure path, hence Option.  The headers and timestamp
keys are never read by the aggregator and are omitted. -/
structure AvailabilityDict where
  status : String
  status_code : Option Nat
  response_time_ms : Option ℚ
  ssl_valid : Option Bool
  error : Option String
deriving DecidableEq

/-- Lines 94 to 117: one GET against the site URL.  On a response the stored
status is "online" exactly when the HTTP status code equals 200 (any other
code, including other 2xx codes, gives "issues"); a RequestException gives
the "offline" dict, which has no latency field. -/
def check_site_availability : AvailFetch → AvailabilityDict
  | .exc e =>
      { status := "offline", status_code := none, response_time_ms := none,
        ssl_valid := none, error := some e }
  | .resp code ms https =>
      { status := if code = 200 then "online" else "issues",
        status_code := some code, response_time_ms := some ms,
        ssl_valid := some https, error := none }

/-! Performance probe (check_site_performance / run_lighthouse_audit,
lines 119 to 158). -/

/-- The performance category of the parsed lighthouse-report.json; score is
the value of the get chain ending in get of key score with default 0
(line 152), none when the key is missing. -/
structure LighthouseJson where
  score : Option ℚ
deriving DecidableEq

/-- Outcome of the lighthouse subprocess run (lines 139 to 154): exc is the
except branch (TimeoutExpired, FileNotFoundError); completed carries the exit
code, whether the report file exists on disk, and the parse result of that
file (none models a json.JSONDecodeError, which the same except clause
catches and turns into the overall result None). -/
inductive AuditRun where
  | exc (msg : String)
  | completed (returncode : Int) (report_file_written : Bool)
      (parsed : Option LighthouseJson)
deriving DecidableEq

/-- Python int() truncation toward zero on an exact rational. -/
def pyInt (q : ℚ) : Int := Int.tdiv q.num (q.den : Int)

/-- Lines 136 to 158.  Returns int(performance_score * 100) when the audit
completed, the report file exists, it parses, and the extracted score is
truthy (nonzero); None otherwise.  Lighthouse scores lie in the unit
interval, so the Int.toNat cast after truncation is lossless. -/
def run_lighthouse_audit : AuditRun → Option Nat
  | .exc _ => none
  | .completed rc written parsed =>
      if rc = 0 ∧ written then
        match parsed with
        | none => none
        | some report =>
            let performance_score : ℚ := report.score.getD 0
            if performance_score ≠ 0 then some (pyInt (performance_score * 100)).toNat
            else none
      else none

/-- Dict returned by check_site_performance (lines 119 to 134); only the
lighthouse_score key is read by the aggregator, the page-size, history and
suggestion keys are omitted. -/
structure PerformanceDict where
  lighthouse_score : Option Nat
deriving DecidableEq

/-- Lines 119 to 134, restricted to the field the aggregator consumes. -/
def check_site_performance (a : AuditRun) : PerformanceDict :=
  { lighthouse_score := run_lighthouse_audit a }

/-! SEO probe (check_seo_health and sub-checks, lines 209 to 349). -/

/-- Outcome of one requests.get made by an SEO sub-check: the raised
exception or a response with status code and body text. -/
inductive Fetch where
  | exc (msg : String)
  | resp (status_code : Nat) (body : String)
deriving DecidableEq

/-- Dict returned by check_sitemap (lines 224 to 246).  The success branch
also stores last_modified and size_kb, which nothing reads; omitted. -/
structure SitemapDict where
  «exists» : Bool
  url_count : Option Nat
  status_code : Option Nat
  error : Option String
deriving DecidableEq

/-- Lines 224 to 246.  The XML parse of the body (ET.fromstring plus the url
tag count) is abstracted as the second argument; none models a parse
exception, caught by the enclosing except which returns the error dict. -/
def check_sitemap : Fetch → Option Nat → SitemapDict
  | .exc e, _ =>
      { «exists» := false, url_count := none, status_code := none, error := some e }
  | .resp code _, parse =>
      if code = 200 then
        match parse with
        | some n =>
            { «exists» := true, url_count := some n, status_code := none, error := none }
        | none =>
            { «exists» := false, url_count := none, status_code := none,
              error := some "xml parse failure" }
      else
        { «exists» := false, url_count := none, status_code := some code, error := none }

/-- Dict returned by check_robots_txt (lines 248 to 260): the exception
branch stores only exists and error (no size key), the response branch
stores exists, content and size. -/
structure RobotsDict where
  «exists» : Bool
  content : Option String
  size : Option Nat
  error : Option String
deriving DecidableEq

/-- Lines 248 to 260. -/
def check_robots_txt : Fetch → RobotsDict
  | .exc e => { «exists» := false, content := none, size := none, error := some e }
  | .resp code body =>
      { «exists» := code == 200,
        content := if code = 200 then some body else none,
        size := some (if code = 200 then body.length else 0),
        error := none }

/-- Dict built by analyze_meta_tags on its success path (lines 262 to 281). -/
structure MetaTagsDict where
  has_title : Bool
  has_description : Bool
  has_keywords : Bool
  has_og_tags : Bool
  has_twitter_cards : Bool
  has_canonical : Bool
deriving DecidableEq

/-- Substring containment on strings, modelling the Python in operator on
str. -/
def strContainsSub (s pat : String) : Bool := decide (pat.toList <:+: s.toList)

/-- Lines 262 to 281: substring tests against the homepage HTML; the except
branch returns the empty dict, modelled as none. -/
def analyze_meta_tags : Fetch → Option MetaTagsDict
  | .exc _ => none
  | .resp _ body => some
      { has_title := strContainsSub body "<title>",
        has_description := strContainsSub body "name=\"description\"",
        has_keywords := strContainsSub body "name=\"keywords\"",
        has_og_tags := strContainsSub body "property=\"og:",
        has_twitter_cards := strContainsSub body "name=\"twitter:",
        has_canonical := strContainsSub body "rel=\"canonical\"" }

/-- Dict returned by check_seo_health (lines 209 to 222), restricted to the
three sub-results the aggregator reads (structured_data, internal_links and
page_titles are never consulted by calculate_health_score). -/
structure SeoDict where
  sitemap_exists : SitemapDict
  robots_txt_exists : RobotsDict
  meta_tags_analysis : Option MetaTagsDict
deriving DecidableEq

/-- The independent external inputs consumed by the SEO sub-checks. -/
structure SeoInputs where
  sitemap_fetch : Fetch
  sitemap_xml_urls : Option Nat
  robots_fetch : Fetch
  homepage_fetch : Fetch
deriving DecidableEq

/-- Lines 209 to 222: each sub-check runs inside its own try, so the
composite dict is always produced, whatever the individual outcomes. -/
def check_seo_health (i : SeoInputs) : SeoDict :=
  { sitemap_exists := check_sitemap i.sitemap_fetch i.sitemap_xml_urls,
    robots_txt_exists := check_robots_txt i.robots_fetch,
    meta_tags_analysis := analyze_meta_tags i.homepage_fetch }

/-! Content-integrity probe (count_posts, lines 365 to 402). -/

/-- The date value of a front-matter block as PyYAML yields it: absent, a
date-only scalar (datetime.date), a full timestamp (datetime.datetime,
modelled in epoch seconds), or a quoted string. -/
inductive DateField where
  | absent
  | dateOnly (epoch_day : Int)
  | datetimeAt (epoch_second : Int)
  | text (s : String)
deriving DecidableEq

/-- One markdown file under _posts as count_posts sees it: either it does not
start with a front-matter fence, or reading/YAML-parsing raises (caught at
line 399, counted in the total only), or it parses to a draft flag (the get
of key draft with default False) and a date value. -/
inductive PostFile where
  | noFrontMatter
  | readError
  | parsed (draft : Bool) (date : DateField)
deriving DecidableEq

/-- The counts dict built by count_posts. -/
structure PostCounts where
  total_posts : Nat
  published_posts : Nat
  draft_posts : Nat
  recent_posts : Nat
deriving DecidableEq

def secondsPerDay : Int := 86400

/-- The body of the loop of count_posts (lines 377 to 400): the total is
incremented before the try; inside, the draft flag splits published versus
draft, and recent_posts is incremented only when the date value is an actual
datetime.datetime instance (a date-only scalar is a datetime.date, which
fails the isinstance test, and a string fails it too) strictly later than
now minus 30 days.  A datetime object is always truthy, so the truthiness
conjunct adds nothing in that branch. -/
def countPost (recent_cutoff : Int) (c : PostCounts) (p : PostFile) : PostCounts :=
  let c := { c with total_posts := c.total_posts + 1 }
  match p with
  | .noFrontMatter => c
  | .readError => c
  | .parsed draft date =>
      let c :=
        if ¬ draft then { c with published_posts := c.published_posts + 1 }
        else { c with draft_posts := c.draft_posts + 1 }
      match date with
      | .datetimeAt t =>
          if recent_cutoff < t then { c with recent_posts := c.recent_posts + 1 } else c
      | _ => c

/-- Lines 365 to 402, with recent_date = now - timedelta(days=30). -/
def count_posts (now : Int) (posts : List PostFile) : PostCounts :=
  posts.foldl (countPost (now - 30 * secondsPerDay)) ⟨0, 0, 0, 0⟩

/-- Dict returned by check_content_integrity (lines 351 to 363), restricted
to the two sub-results the aggregator reads (images_analysis, missing_assets
and content_quality are never consulted by calculate_health_score). -/
structure ContentDict where
  posts_count : PostCounts
  broken_links : List String
deriving DecidableEq

/-- Lines 351 to 363: the broken-link list produced by find_broken_links is
taken as an input here, since no claim depends on its internals. -/
def check_content_integrity (now : Int) (posts : List PostFile)
    (broken : List String) : ContentDict :=
  { posts_count := count_posts now posts, broken_links := broken }

/-! Security probe (check_dependencies, lines 574 to 587). -/

/-- Outcome of one subprocess.run of an external tool: the raised exception
(tool missing, timeout) or completion with exit code and captured output. -/
inductive ToolRun where
  | exc (msg : String)
  | completed (returncode : Int) (stdout : String) (stderr : String)
deriving DecidableEq

/-- Dict returned by check_dependencies: ok is the normal branch with the
vulnerabilities_found key, error is the except branch whose dict carries
only an error key (no vulnerabilities_found key at all). -/
inductive DependencyDict where
  | ok (vulnerabilities_found : Bool) (output : String) (errors : Option String)
  | error (msg : String)
deriving DecidableEq

/-- Lines 574 to 587: bundle audit check; a nonzero exit code means
vulnerabilities were found. -/
def check_dependencies : ToolRun → DependencyDict
  | .exc e => .error e
  | .completed rc out err => .ok (rc != 0) out (if rc != 0 then some err else none)

/-- The aggregator access at line 666: get of key vulnerabilities_found with
default True, so a scan that could not run reads as True. -/
def DependencyDict.getVulnerabilitiesFound : DependencyDict → Bool
  | .ok found _ _ => found
  | .error _ => true

/-- Dict returned by check_security (lines 543 to 554), restricted to the two
sub-results the aggregator reads (security_headers and sensitive_files are
never consulted by calculate_health_score). -/
structure SecurityDict where
  https_enabled : Bool
  dependency_vulnerabilities : DependencyDict
deriving DecidableEq

/-! Build probe (check_build_status, lines 608 to 628). -/

/-- Dict returned by check_build_status; both branches set build_successful,
which is all the aggregator reads. -/
structure BuildDict where
  build_successful : Bool
deriving DecidableEq

/-- Lines 608 to 628: dry-run jekyll build, success iff exit code zero; the
except branch records failure. -/
def check_build_status : ToolRun → BuildDict
  | .exc _ => { build_successful := false }
  | .completed rc _ _ => { build_successful := rc == 0 }

/-! The health report and the score aggregator
(calculate_health_score, lines 630 to 673). -/

/-- The report assembled by check_site_health (lines 71 to 92), restricted to
the six probe results; the timestamp is never read by the aggregator. -/
structure HealthReport where
  site_availability : AvailabilityDict
  performance : PerformanceDict
  seo_health : SeoDict
  content_integrity : ContentDict
  security_scan : SecurityDict
  build_status : BuildDict
deriving DecidableEq

/-- Lines 636 to 639: 20 points when the stored status is "online", plus a
5-point bonus when the stored latency is under 1000 ms.  The latency key is
read only inside the online branch; reading it when it is absent would raise
KeyError, hence the Option result. -/
def availabilityPoints (a : AvailabilityDict) : Option Nat :=
  if a.status = "online" then
    match a.response_time_ms with
    | none => none
    | some rt => some (20 + if rt < 1000 then 5 else 0)
  else some 0

/-- Lines 642 to 644: the get of key lighthouse_score followed by a truthiness
test, so both a missing score and a zero score contribute nothing; otherwise
int(lighthouse_score * 0.2), which equals the truncating division by 5 (see
the header note on the double 0.2). -/
def performancePoints : Option Nat → Nat
  | none => 0
  | some s => if s ≠ 0 then s / 5 else 0

/-- A get with default False against the possibly-empty meta-tags dict. -/
def metaGetD (m : Option MetaTagsDict) (f : MetaTagsDict → Bool) : Bool :=
  match m with
  | none => false
  | some d => f d

/-- Lines 646 to 653: sum of the four boolean checks, times 5. -/
def seoPoints (s : SeoDict) : Nat :=
  (s.sitemap_exists.«exists».toNat + s.robots_txt_exists.«exists».toNat
    + (metaGetD s.meta_tags_analysis (·.has_title)).toNat
    + (metaGetD s.meta_tags_analysis (·.has_description)).toNat) * 5

/-- Lines 655 to 661: 10 points when total_posts is positive (note: the
total, not the published count), 10 points when the broken-link list is
empty. -/
def contentPoints (c : ContentDict) : Nat :=
  (if 0 < c.posts_count.total_posts then 10 else 0)
    + (if c.broken_links.length = 0 then 10 else 0)

/-- Lines 663 to 667: 5 points for https, 5 points when the
vulnerabilities_found value read with default True is False. -/
def securityPoints (s : SecurityDict) : Nat :=
  (if s.https_enabled then 5 else 0)
    + (if ¬ s.dependency_vulnerabilities.getVulnerabilitiesFound then 5 else 0)

/-- Lines 669 to 671: 10 points when the build succeeded. -/
def buildPoints (b : BuildDict) : Nat :=
  if b.build_successful then 10 else 0

/-- Lines 630 to 673: the additive accumulation of the six dimension blocks,
clamped by min(score, max_score) with max_score = 100.  The only dict access
that can raise is the latency read inside the availability block, so the
whole computation is none exactly when that access raises. -/
def calculate_health_score (r : HealthReport) : Option Nat :=
  match availabilityPoints r.site_availability with
  | none => none
  | some availability =>
      let max_score : Nat := 100
      let score :=
        availability
          + performancePoints r.performance.lighthouse_score
          + seoPoints r.seo_health
          + contentPoints r.content_integrity
          + securityPoints r.security_scan
          + buildPoints r.build_status
      some (min score max_score)

/-! Report store (save_health_report, lines 675 to 692). -/

/-- The observable state of the automation directory: the report files by
name, and the latest_health_report.json symlink as an optional target.  A
later write of the same name shadows the earlier entry, matching open with
mode w. -/
structure ReportStore where
  files : List (String × String)
  latest : Option String
deriving DecidableEq

/-- The json.dump at line 680: the report file appears with its full
contents in one step. -/
def writeReportFile (fs : ReportStore) (name contents : String) : ReportStore :=
  { fs with files := (name, contents) :: fs.files }

/-- The unlink at line 688. -/
def unlinkLatest (fs : ReportStore) : ReportStore := { fs with latest := none }

/-- The symlink_to at line 689. -/
def symlinkLatest (fs : ReportStore) (target : String) : ReportStore :=
  { fs with latest := some target }

/-- Reading one report file by name. -/
def readReportFile (fs : ReportStore) (name : String) : Option String :=
  (fs.files.find? (fun p => p.1 == name)).map (fun p => p.2)

/-- Following the latest pointer and reading the file it references. -/
def readLatestReport (fs : ReportStore) : Option String :=
  fs.latest.bind (readReportFile fs)

/-- Lines 675 to 692 as the sequence of observable filesystem states: write
the timestamped report file, unlink the latest symlink when it exists, then
recreate it pointing at the new file.  The returned list holds every state a
concurrent reader could observe, the initial one included. -/
def save_health_report (fs : ReportStore) (report_file contents : String) :
    List ReportStore :=
  let s1 := writeReportFile fs report_file contents
  let s2 := if s1.latest.isSome then unlinkLatest s1 else s1
  let s3 := symlinkLatest s2 report_file
  [fs, s1, s2, s3]

/-- The state after save_health_report has finished. -/
def saveFinalState (fs : ReportStore) (report_file contents : String) : ReportStore :=
  ((save_health_report fs report_file contents).getLast?).getD fs

/-- The pointer invariant: when the latest symlink exists, the file it
references exists. -/
def latestIntact (fs : ReportStore) : Bool :=
  match fs.latest with
  | none => true
  | some t => (readReportFile fs t).isSome

/-! Theorems settling the claims. -/

/-- Claim C1: for every health report the aggregator finishes on, the overall
score is an integer in the inclusive range 0 to 100, even though the raw sum
of all awards can reach 105. -/
theorem overall_score_in_range (r : HealthReport) (n : Nat)
    (h : calculate_health_score r = some n) : 0 ≤ n ∧ n ≤ 100 := by
  refine ⟨Nat.zero_le n, ?_⟩
  unfold calculate_health_score at h
  cases hA : availabilityPoints r.site_availability with
  | none => rw [hA] at h; cases h
  | some a =>
      rw [hA] at h
      simp only [Option.some.injEq] at h
      omega

/-- A report on which every dimension scores fully and the raw award sum is
104; used to exhibit a satisfying instance for the range theorem. -/
def perfectReport : HealthReport :=
  { site_availability :=
      { status := "online", status_code := some 200, response_time_ms := some 400,
        ssl_valid := some true, error := none },
    performance := { lighthouse_score := some 95 },
    seo_health :=
      { sitemap_exists :=
          { «exists» := true, url_count := some 42, status_code := none, error := none },
        robots_txt_exists :=
          { «exists» := true, content := some "User-agent: *", size := some 13,
            error := none },
        meta_tags_analysis := some
          { has_title := true, has_description := true, has_keywords := true,
            has_og_tags := true, has_twitter_cards := true, has_canonical := true } },
    content_integrity :=
      { posts_count := count_posts 0 [.parsed false .absent, .parsed false .absent],
        broken_links := [] },
    security_scan :=
      { https_enabled := true, dependency_vulnerabilities := .ok false "" none },
    build_status := { build_successful := true } }

/-- Witness for the range theorem at a concrete report scoring 100. -/
theorem overall_score_in_range_witness :
    calculate_health_score perfectReport = some 100 ∧ 0 ≤ 100 ∧ 100 ≤ 100 :=
  ⟨by decide, overall_score_in_range perfectReport 100 (by decide)⟩

/-- Claim C2: with the availability probe in its Failed shape (status offline,
no latency key) and every other probe nominal at audit score 80, the
aggregator completes without raising and returns exactly 76. -/
theorem failed_availability_scenario_score
    (r : HealthReport) (e out : String) (errs : Option String)
    (hA : r.site_availability = check_site_availability (.exc e))
    (hP : r.performance.lighthouse_score = some 80)
    (hSm : r.seo_health.sitemap_exists.«exists» = true)
    (hRb : r.seo_health.robots_txt_exists.«exists» = true)
    (hTi : metaGetD r.seo_health.meta_tags_analysis (·.has_title) = true)
    (hDe : metaGetD r.seo_health.meta_tags_analysis (·.has_description) = true)
    (hPosts : 0 < r.content_integrity.posts_count.total_posts)
    (hLinks : r.content_integrity.broken_links = [])
    (hHttps : r.security_scan.https_enabled = true)
    (hDep : r.security_scan.dependency_vulnerabilities = .ok false out errs)
    (hBuild : r.build_status.build_successful = true) :
    calculate_health_score r = some 76 := by
  unfold calculate_health_score
  rw [hA]
  simp only [check_site_availability, availabilityPoints]
  rw [hP]
  simp only [performancePoints, seoPoints, contentPoints, securityPoints, buildPoints,
    hSm, hRb, hTi, hDe, hLinks, hHttps, hDep, hBuild,
    DependencyDict.getVulnerabilitiesFound]
  rw [if_pos hPosts]
  decide

/-- A concrete report realizing the Failed-availability scenario. -/
def failedAvailabilityReport : HealthReport :=
  { site_availability := check_site_availability (.exc "NetworkUnavailable"),
    performance := { lighthouse_score := some 80 },
    seo_health :=
      { sitemap_exists :=
          { «exists» := true, url_count := some 12, status_code := none, error := none },
        robots_txt_exists :=
          { «exists» := true, content := some "User-agent: *", size := some 13,
            error := none },
        meta_tags_analysis := some
          { has_title := true, has_description := true, has_keywords := false,
            has_og_tags := false, has_twitter_cards := false, has_canonical := false } },
    content_integrity :=
      { posts_count := count_posts 0 [.parsed false .absent], broken_links := [] },
    security_scan :=
      { https_enabled := true, dependency_vulnerabilities := .ok false "" none },
    build_status := { build_successful := true } }

/-- Witness for the Failed-availability scenario theorem at a concrete
report. -/
theorem failed_availability_scenario_score_witness :
    calculate_health_score failedAvailabilityReport = some 76 :=
  failed_availability_scenario_score failedAvailabilityReport
    "NetworkUnavailable" "" none rfl rfl rfl rfl rfl rfl (by decide) rfl rfl rfl rfl

/-- Claim C3 fails on the code: at audit score 83 the code awards
int(83 * 0.2) = 16 points, while rounding 83 * 0.2 = 16.6 as the claim states
gives 17. -/
theorem performance_round_counterexample :
    performancePoints (some 83) = 16 ∧ round ((83 : ℚ) * 0.2) = 17 := by
  constructor
  · rfl
  · rw [round_eq]
    norm_num

/-- Claim C3 amended: the performance contribution is the truncation (Python
int) of audit_score * 0.2, namely the floor of s / 5, not its rounding; it is
0 when the audit score is absent. -/
theorem performance_points_eq_trunc (s : Nat) :
    performancePoints (some s) = ⌊(s : ℚ) * 0.2⌋₊ ∧ performancePoints none = 0 := by
  refine ⟨?_, rfl⟩
  have h : (s : ℚ) * 0.2 = (s : ℚ) / ((5 : ℕ) : ℚ) := by
    push_cast
    norm_num
    ring
  rw [performancePoints, h, Nat.floor_div_nat, Nat.floor_natCast]
  by_cases hs : s = 0
  · subst hs; rfl
  · simp [hs]

/-- An entry whose front matter parsed and whose draft flag is false: a
published entry in the sense of the spec. -/
def isPublishedEntry : PostFile → Bool
  | .parsed draft _ => ! draft
  | _ => false

/-- An entry whose front matter parsed and whose draft flag is true. -/
def isDraftEntry : PostFile → Bool
  | .parsed draft _ => draft
  | _ => false

/-- An entry the counting loop treats as recent: parsed front matter whose
date is a full datetime strictly later than the cutoff. -/
def isRecentEntry (cutoff : Int) : PostFile → Bool
  | .parsed _ (.datetimeAt t) => decide (cutoff < t)
  | _ => false

/-- Unfolding of the counting fold: each counter of count_posts is the
number of entries satisfying the corresponding predicate. -/
theorem foldl_countPost (cutoff : Int) (posts : List PostFile) (c : PostCounts) :
    posts.foldl (countPost cutoff) c =
      { total_posts := c.total_posts + posts.length,
        published_posts := c.published_posts + posts.countP isPublishedEntry,
        draft_posts := c.draft_posts + posts.countP isDraftEntry,
        recent_posts := c.recent_posts + posts.countP (isRecentEntry cutoff) } := by
  induction posts generalizing c with
  | nil => simp
  | cons p ps ih =>
      rw [List.foldl_cons, ih]
      cases p with
      | noFrontMatter =>
          simp [countPost, isPublishedEntry, isDraftEntry, isRecentEntry,
            List.countP_cons, PostCounts.mk.injEq]
          omega
      | readError =>
          simp [countPost, isPublishedEntry, isDraftEntry, isRecentEntry,
            List.countP_cons, PostCounts.mk.injEq]
          omega
      | parsed draft date =>
          cases date with
          | datetimeAt t =>
              by_cases h : cutoff < t <;> cases draft <;>
                simp [countPost, isPublishedEntry, isDraftEntry, isRecentEntry,
                  List.countP_cons, PostCounts.mk.injEq, h] <;>
                omega
          | absent =>
              cases draft <;>
                simp [countPost, isPublishedEntry, isDraftEntry, isRecentEntry,
                  List.countP_cons, PostCounts.mk.injEq] <;>
                omega
          | dateOnly d =>
              cases draft <;>
                simp [countPost, isPublishedEntry, isDraftEntry, isRecentEntry,
                  List.countP_cons, PostCounts.mk.injEq] <;>
                omega
          | text s =>
              cases draft <;>
                simp [countPost, isPublishedEntry, isDraftEntry, isRecentEntry,
                  List.countP_cons, PostCounts.mk.injEq] <;>
                omega

/-- Closed form of count_posts. -/
theorem count_posts_spec (now : Int) (posts : List PostFile) :
    count_posts now posts =
      { total_posts := posts.length,
        published_posts := posts.countP isPublishedEntry,
        draft_posts := posts.countP isDraftEntry,
        recent_posts := posts.countP (isRecentEntry (now - 30 * secondsPerDay)) } := by
  rw [count_posts, foldl_countPost]
  simp

/-- Claim C4 fails on the code: a report whose only entry is a draft (so it
has no published entry at all) still receives the first 10 content points,
because the code tests total_posts rather than published_posts.  The
broken-link list is nonempty here, isolating the first award. -/
theorem content_published_counterexample :
    contentPoints
        { posts_count := count_posts 0 [.parsed true .absent],
          broken_links := ["about.md: /missing"] } = 10
      ∧ (count_posts 0 [PostFile.parsed true .absent]).published_posts = 0
      ∧ [PostFile.parsed true .absent].countP isPublishedEntry = 0 := by
  decide

/-- Claim C4 amended: the first 10 content points are awarded iff the report
contains at least one entry of any kind (published or draft, since the code
tests the total count), and the second 10 iff the broken-link list is
empty. -/
theorem content_points_characterization (now : Int) (posts : List PostFile)
    (broken : List String) :
    contentPoints { posts_count := count_posts now posts, broken_links := broken } =
      (if 0 < posts.length then 10 else 0) + (if broken = [] then 10 else 0) := by
  rw [contentPoints, count_posts_spec]
  simp [List.length_eq_zero]

/-- Claim C5 fails on the code: HTTP 204 lies in the 2xx success range, yet
the probe stores status issues, not online, because the code compares the
status code with 200 exactly. -/
theorem availability_2xx_counterexample :
    (check_site_availability (.resp 204 50 true)).status = "issues"
      ∧ 200 ≤ 204 ∧ 204 < 300 := by
  decide

/-- Claim C5 amended: the site is reported online iff the response status
code equals 200 exactly (other 2xx codes give issues), and a timeout or
connection error yields the offline dict. -/
theorem availability_status_characterization (code : Nat) (ms : ℚ) (https : Bool)
    (e : String) :
    ((check_site_availability (.resp code ms https)).status = "online" ↔ code = 200)
      ∧ (check_site_availability (.exc e)).status = "offline" := by
  refine ⟨?_, rfl⟩
  unfold check_site_availability
  by_cases h : code = 200 <;> simp [h]

/-- Claim C6 fails on the code: when the dependency scan could not run (the
result dict carries only an error key), the get with default True makes the
aggregator treat the unknown as vulnerabilities found, so the 5 points are
withheld; with a clean scan they are awarded. -/
theorem unknown_vulnerabilities_counterexample :
    securityPoints
        { https_enabled := true,
          dependency_vulnerabilities := check_dependencies (.exc "bundle tool missing") }
        = 5
      ∧ securityPoints
          { https_enabled := true, dependency_vulnerabilities := .ok false "" none }
        = 10 := by
  decide

/-- Claim C6 amended: an unavailable dependency scan is read back as
vulnerabilities_found = True by the default of the get, so the aggregator
withholds the 5 no-vulnerability points whenever the scan result is
unknown - absence of data is treated as a negative finding. -/
theorem unknown_vulnerabilities_withheld (https : Bool) (e : String) :
    securityPoints
        { https_enabled := https,
          dependency_vulnerabilities := check_dependencies (.exc e) }
      = (if https then 5 else 0)
      ∧ (check_dependencies (.exc e)).getVulnerabilitiesFound = true := by
  refine ⟨?_, rfl⟩
  cases https <;> rfl

/-- Claim C7: when the sitemap fetch raises while robots.txt succeeds, the
SEO probe still returns its composite dict with sitemap exists false and
robots exists true, and the SEO contribution is exactly 5 points below the
one of the same report with a healthy sitemap. -/
theorem seo_sitemap_failure_isolated (e smBody rbBody : String)
    (urls : Option Nat) (n : Nat) (hp : Fetch) :
    (check_seo_health
        { sitemap_fetch := .exc e, sitemap_xml_urls := urls,
          robots_fetch := .resp 200 rbBody,
          homepage_fetch := hp }).sitemap_exists.«exists» = false
      ∧ (check_seo_health
          { sitemap_fetch := .exc e, sitemap_xml_urls := urls,
            robots_fetch := .resp 200 rbBody,
            homepage_fetch := hp }).robots_txt_exists.«exists» = true
      ∧ seoPoints (check_seo_health
            { sitemap_fetch := .exc e, sitemap_xml_urls := urls,
              robots_fetch := .resp 200 rbBody, homepage_fetch := hp }) + 5
          = seoPoints (check_seo_health
              { sitemap_fetch := .resp 200 smBody, sitemap_xml_urls := some n,
                robots_fetch := .resp 200 rbBody, homepage_fetch := hp }) := by
  refine ⟨rfl, rfl, ?_⟩
  simp only [check_seo_health, seoPoints, check_sitemap, check_robots_txt]
  simp
  omega

/-- Whatever file the pointer resolved to before a write still resolves after
it (a write of the same name merely shadows it with fresh contents). -/
theorem readReportFile_write_isSome (fs : ReportStore) (name contents t : String)
    (h : (readReportFile fs t).isSome = true) :
    (readReportFile (writeReportFile fs name contents) t).isSome = true := by
  unfold readReportFile writeReportFile at *
  cases hb : (name == t) <;> simp [List.find?_cons, hb]
  · simpa using h

/-- Claim C8: along every observable state of save_health_report, an existing
latest pointer resolves to an existing, fully written file; and reading back
through the pointer immediately after the save yields exactly the report
contents just written. -/
theorem save_report_pointer_atomic (fs : ReportStore) (report_file contents : String)
    (h : latestIntact fs = true) :
    (∀ st ∈ save_health_report fs report_file contents, latestIntact st = true)
      ∧ readLatestReport (saveFinalState fs report_file contents) = some contents := by
  constructor
  · intro st hst
    simp only [save_health_report, List.mem_cons, List.not_mem_nil, or_false] at hst
    rcases hst with rfl | rfl | rfl | rfl
    · exact h
    · cases hl : fs.latest with
      | none => simp [latestIntact, writeReportFile, hl]
      | some t =>
          have hh : (readReportFile fs t).isSome = true := by
            simpa [latestIntact, hl] using h
          simpa [latestIntact, writeReportFile, hl] using
            readReportFile_write_isSome fs report_file contents t hh
    · cases hl : fs.latest with
      | none => simp [latestIntact, writeReportFile, unlinkLatest, hl]
      | some t =>
          have hh : (readReportFile fs t).isSome = true := by
            simpa [latestIntact, hl] using h
          have := readReportFile_write_isSome fs report_file contents t hh
          simp only [writeReportFile] at this
          simp [latestIntact, writeReportFile, unlinkLatest, hl]
    · cases hl : fs.latest with
      | none =>
          simp [latestIntact, writeReportFile, unlinkLatest, symlinkLatest,
            readReportFile, List.find?_cons, hl]
      | some t =>
          simp [latestIntact, writeReportFile, unlinkLatest, symlinkLatest,
            readReportFile, List.find?_cons, hl]
  · cases hl : fs.latest with
    | none =>
        simp [saveFinalState, save_health_report, readLatestReport, symlinkLatest,
          unlinkLatest, writeReportFile, readReportFile, List.find?_cons, hl]
    | some t =>
        simp [saveFinalState, save_health_report, readLatestReport, symlinkLatest,
          unlinkLatest, writeReportFile, readReportFile, List.find?_cons, hl]

/-- A store already holding one report that the latest pointer references. -/
def initialStore : ReportStore :=
  { files := [("health_report_20240101_000000.json", "old report")],
    latest := some "health_report_20240101_000000.json" }

/-- Witness for the pointer-atomicity theorem at a concrete store and save. -/
theorem save_report_pointer_atomic_witness :
    latestIntact initialStore = true
      ∧ readLatestReport
          (saveFinalState initialStore "health_report_20240102_000000.json" "new report")
        = some "new report" :=
  ⟨by decide,
    (save_report_pointer_atomic initialStore "health_report_20240102_000000.json"
        "new report" (by decide)).2⟩

/-- The publish instant a front-matter date value denotes, in epoch seconds:
a full datetime denotes itself and a date-only scalar denotes midnight of
that day; an absent date denotes nothing, and a string date is left
uninterpreted. -/
def dateFieldTimestamp : DateField → Option Int
  | .absent => none
  | .dateOnly d => some (d * secondsPerDay)
  | .datetimeAt t => some t
  | .text _ => none

/-- A date value whose publish instant lies in the trailing 30-day window
ending at the run instant. -/
def dateWithinWindow (now : Int) (d : DateField) : Bool :=
  match dateFieldTimestamp d with
  | some t => decide (now - 30 * secondsPerDay ≤ t) && decide (t ≤ now)
  | none => false

/-- Claim C9 fails on the code: an entry published the day before the run but
with its date written as a plain date scalar (which PyYAML yields as a
datetime.date, not a datetime.datetime) lies inside the 30-day window yet is
not counted as recent, because it fails the isinstance test. -/
theorem recent_posts_representation_counterexample :
    dateWithinWindow (100 * secondsPerDay) (.dateOnly 99) = true
      ∧ (count_posts (100 * secondsPerDay)
          [.parsed false (.dateOnly 99)]).recent_posts = 0 := by
  decide

/-- Claim C9 amended: an entry is counted as recent iff its front-matter
date is a full datetime value strictly later than the run instant minus 30
days; date-only scalars and string dates are never counted, whatever instant
they denote, and future datetimes are counted (no upper bound at the run
instant). -/
theorem recent_posts_characterization (now : Int) (posts : List PostFile) :
    (count_posts now posts).recent_posts
      = posts.countP (isRecentEntry (now - 30 * secondsPerDay)) := by
  rw [count_posts_spec]

/-- Claim C10: an audit that completes successfully but reports a performance
score of exactly zero yields None, the same public result as an unavailable
audit tool, and the aggregator therefore excludes it from scoring in both
cases. -/
theorem zero_audit_score_indistinguishable (msg : String) :
    run_lighthouse_audit (.completed 0 true (some { score := some 0 })) = none
      ∧ run_lighthouse_audit (.exc msg) = none
      ∧ performancePoints
          (run_lighthouse_audit (.completed 0 true (some { score := some 0 }))) = 0 := by
  refine ⟨by decide, rfl, by decide⟩

end BlogHealth
